import Mathlib

/-!
# Verification of the AgentOps MVP RCA pipeline

Shallow embedding of the repository's core components, translated from
the Python sources:

* `app/services/strategy_library.py`   — failure classification (SL)
* `app/use_cases/rca_orchestrator.py`  — RCA orchestrator (RO)
* `app/repositories/agent_run_repo.py` — ingest upsert, timeline
* `app/repositories/rca_repo.py`       — RCArun persistence
* `app/services/progress.py`           — progress publisher (PP)
* `app/services/llm_engine.py`         — narrative engine (NE)
* `app/api/rca_runs.py`                — idempotent RCA creation
* `app/api/agent_runs.py`              — timeline endpoint

Python `datetime` values are modelled as `Nat` ticks (minutes where the
10-minute idempotency window is concerned); JSON numeric values that no
claim depends on are modelled as `Int`.  Python string truthiness
(`None` and `""` are falsy) is modelled explicitly.  Fallible broker
operations are driven by an explicit oracle of failure bits; a Python
exception is an `Except` error carrying the state at the raise point.
-/

namespace AgentOps

/-! ## String helpers (Python `needle in hay` and `str.lower()`) -/

/-- `startsWithChars hay needle` : does `hay` start with `needle`? -/
def startsWithChars : List Char → List Char → Bool
  | _, [] => true
  | [], _ :: _ => false
  | h :: hs, n :: ns => h == n && startsWithChars hs ns

/-- `hasSubstrChars hay needle` : does `needle` occur contiguously in `hay`?
(Python `needle in hay`; the empty needle always occurs.) -/
def hasSubstrChars : List Char → List Char → Bool
  | [], needle => needle.isEmpty
  | h :: t, needle => startsWithChars (h :: t) needle || hasSubstrChars t needle

/-- Python `needle in hay` on strings. -/
def strContains (hay needle : String) : Bool :=
  hasSubstrChars hay.data needle.data

/-- Python truthiness of an optional string: `None` and `""` are falsy. -/
def optTruthy : Option String → Bool
  | none => false
  | some s => !(s == "")

/-- Python `s and needle in s.lower()` for an optional string `s`. -/
def optContains (s : Option String) (needle : String) : Bool :=
  match s with
  | none => false
  | some t => !(t == "") && strContains t.toLower needle

/-- Python `s and any(k in s.lower() for k in needles)`. -/
def optContainsAny (s : Option String) (needles : List String) : Bool :=
  match s with
  | none => false
  | some t => !(t == "") && needles.any (fun n => strContains t.toLower n)

/-! ## Data model (`app/schemas/agent_run.py`, `app/models/agent_run.py`) -/

/-- A tool call child record (`ToolCall`). -/
structure ToolCall where
  call_id : String
  step_id : String
  tool_name : String
  status : String
  args_json : List (String × String) := []
  args_hash : String := ""
  result_summary : String := ""
  error_class : Option String := none
  error_message : Option String := none
  status_code : Option Int := none
  retries : Nat := 0
  latency_ms : Int := 0
  deriving Repr, DecidableEq

/-- A step child record (`AgentStep`). -/
structure AgentStep where
  step_id : String
  name : String
  status : String
  started_at : Nat
  ended_at : Nat
  input_summary : String := ""
  output_summary : String := ""
  retries : Nat := 0
  latency_ms : Int := 0
  deriving Repr, DecidableEq

/-- A guardrail event child record (`GuardrailEvent`). -/
structure GuardrailEvent where
  event_id : String
  type : String
  message : String
  step_id : Option String := none
  call_id : Option String := none
  created_at : Nat := 0
  deriving Repr, DecidableEq

/-- The agent run root record (`AgentRun`).  The JSON `cost` record is
modelled by its only consulted entry, `total_cost_usd`. -/
structure AgentRun where
  run_id : String
  agent_name : String
  agent_version : String
  model : String
  environment : String
  status : String
  started_at : Nat
  ended_at : Nat
  error_type : Option String := none
  error_message : Option String := none
  trace_id : Option String := none
  correlation_ids : List String := []
  cost_total_usd : Option Int := none
  created_at : Nat := 0
  deriving Repr, DecidableEq

/-! ## Strategy Library (`app/services/strategy_library.py`) -/

/-- The eight closed failure categories (`RCACategory`). -/
inductive RCACategory
  | tool_schema_mismatch
  | rate_limited
  | tool_permission
  | timeout
  | planner_loop
  | retrieval_empty
  | prompt_regression
  | unknown
  deriving Repr, DecidableEq

/-- The if-chain run on one failing tool call inside the
`for tool_call in tool_calls` loop of `StrategyLibrary.classify_category`
(the code's `return` statements become `some`). -/
def toolCallRules (tc : ToolCall) : Option RCACategory :=
  if tc.status_code == some 429 || optContains tc.error_message "rate limit" then
    some .rate_limited
  else if optContains tc.error_class "schema" then
    some .tool_schema_mismatch
  else if optContainsAny tc.error_message
      ["validation", "schema", "unexpected", "missing required"] then
    some .tool_schema_mismatch
  else if tc.status_code == some 401 || tc.status_code == some 403
      || optContainsAny tc.error_message
        ["permission", "unauthorized", "forbidden", "access denied"] then
    some .tool_permission
  else if optContains tc.error_class "timeout" then
    some .timeout
  else if optContains tc.error_message "timeout" then
    some .timeout
  else none

/-- The tool-call scan of `StrategyLibrary.classify_category`: the code's
`for tool_call in tool_calls` loop, returning the first category decided
by a failing tool call. -/
def scanToolCalls : List ToolCall → Option RCACategory
  | [] => none
  | tc :: rest =>
    if tc.status == "failure" then
      match toolCallRules tc with
      | some c => some c
      | none => scanToolCalls rest
    else scanToolCalls rest

/-- `StrategyLibrary.classify_category`, translated clause by clause. -/
def classify_category (error_type error_message : Option String)
    (tool_calls : List ToolCall) (steps : List AgentStep)
    (guardrails : List GuardrailEvent) : RCACategory :=
  match scanToolCalls tool_calls with
  | some c => c
  | none =>
    if guardrails.any (fun g => g.type == "schema_validation") then
      .tool_schema_mismatch
    else if (steps.map (·.retries)).foldl max 0 ≥ 3 then
      .planner_loop
    else if tool_calls.isEmpty && !(optTruthy error_type)
        && steps.any (fun s =>
            (strContains s.name.toLower "retriev" || strContains s.name.toLower "search")
            && s.output_summary.length < 50) then
      .retrieval_empty
    else if optContains error_type "timeout" then
      .timeout
    else
      .unknown

/-! Spec-side rendering of claim C1 (the rule cascade as the spec words
it): the failed tool calls are filtered out in input order and each is
tested against the fixed rules (a)-(d); the first failed call matching
any rule decides, and only if none matches are the guardrail, retries,
retrieval, and run-level-timeout rules checked in that order. -/

/-- Rules (a)-(d) on one failed tool call, per spec §4.3 item 1. -/
def toolRuleSpec (tc : ToolCall) : Option RCACategory :=
  if tc.status_code == some 429 || optContains tc.error_message "rate limit" then
    some .rate_limited
  else if optContains tc.error_class "schema"
      || optContainsAny tc.error_message
        ["validation", "schema", "unexpected", "missing required"] then
    some .tool_schema_mismatch
  else if tc.status_code == some 401 || tc.status_code == some 403
      || optContainsAny tc.error_message
        ["permission", "unauthorized", "forbidden", "access denied"] then
    some .tool_permission
  else if optContains tc.error_class "timeout" || optContains tc.error_message "timeout" then
    some .timeout
  else
    none

/-- Spec §4.3 items 2-6: the rules checked only when no tool call matched. -/
def fallbackSpec (error_type : Option String) (tool_calls : List ToolCall)
    (steps : List AgentStep) (guardrails : List GuardrailEvent) : RCACategory :=
  if guardrails.any (fun g => g.type == "schema_validation") then
    .tool_schema_mismatch
  else if (steps.map (·.retries)).foldl max 0 ≥ 3 then
    .planner_loop
  else if tool_calls.isEmpty && !(optTruthy error_type)
      && steps.any (fun s =>
          (strContains s.name.toLower "retriev" || strContains s.name.toLower "search")
          && s.output_summary.length < 50) then
    .retrieval_empty
  else if optContains error_type "timeout" then
    .timeout
  else
    .unknown

/-- The classification cascade as claim C1 words it: scan the failed
tool calls in input order, first match of rules (a)-(d) wins; otherwise
fall back to the remaining rules in order. -/
def classifySpec (error_type error_message : Option String)
    (tool_calls : List ToolCall) (steps : List AgentStep)
    (guardrails : List GuardrailEvent) : RCACategory :=
  match (tool_calls.filter (fun tc => tc.status == "failure")).findSome? toolRuleSpec with
  | some c => c
  | none => fallbackSpec error_type tool_calls steps guardrails

/-- The code's per-call if-chain computes the spec's rules (a)-(d). -/
theorem toolCallRules_eq_spec (tc : ToolCall) : toolCallRules tc = toolRuleSpec tc := by
  unfold toolCallRules toolRuleSpec
  by_cases h1 : (tc.status_code == some 429 || optContains tc.error_message "rate limit") = true
  · simp only [h1, if_true]
  · simp only [Bool.not_eq_true] at h1
    simp only [h1, Bool.false_eq_true, if_false]
    by_cases h2 : optContains tc.error_class "schema" = true
    · simp [h2]
    · by_cases h3 : optContainsAny tc.error_message
          ["validation", "schema", "unexpected", "missing required"] = true
      · simp [h2, h3]
      · by_cases h5 : optContains tc.error_class "timeout" = true
        · simp [h2, h3, h5]
        · simp [h2, h3, h5]

/-- The code's scan agrees with the spec-side scan over failed calls. -/
theorem scanToolCalls_eq_findSome (tcs : List ToolCall) :
    scanToolCalls tcs
      = (tcs.filter (fun tc => tc.status == "failure")).findSome? toolRuleSpec := by
  induction tcs with
  | nil => rfl
  | cons tc rest ih =>
    by_cases hfail : (tc.status == "failure") = true
    · simp only [List.filter_cons, hfail, if_true, List.findSome?_cons]
      simp only [scanToolCalls, hfail, if_true, toolCallRules_eq_spec]
      cases toolRuleSpec tc with
      | some c => rfl
      | none => exact ih
    · simp only [Bool.not_eq_true] at hfail
      simp only [List.filter_cons, hfail, Bool.false_eq_true, if_false]
      simp only [scanToolCalls, hfail, Bool.false_eq_true, if_false, ih]

/-- A concrete failed tool call carrying both a 429 status code and a
timeout error class: rule (a) decides before rule (d). -/
def tc429Timeout : ToolCall :=
  { call_id := "call-1", step_id := "step-1", tool_name := "api",
    status := "failure", error_class := some "TimeoutError",
    status_code := some 429 }

/-- C1: classification is a deterministic first-match-wins cascade —
`classify_category` scans the failed tool calls in input order against
rules (a)-(d), the first failed call matching any rule decides, and only
if none matches are the guardrail, retries, retrieval, and
run-level-timeout rules checked in that order; in particular a failed
tool call with `status_code = 429` and `error_class = "TimeoutError"`
classifies as `rate_limited`, not `timeout`. -/
theorem classification_first_match_cascade :
    (∀ (et em : Option String) (tcs : List ToolCall) (steps : List AgentStep)
        (grs : List GuardrailEvent),
      classify_category et em tcs steps grs = classifySpec et em tcs steps grs)
    ∧ classify_category none none [tc429Timeout] [] [] = .rate_limited := by
  refine ⟨fun et em tcs steps grs => ?_, by decide⟩
  unfold classify_category classifySpec fallbackSpec
  rw [scanToolCalls_eq_findSome]

/-! ## Narrative engine (`app/services/llm_engine.py`)

`LLMEngine.__init__` sets `enabled = bool(settings.openai_api_key)`;
the flag is modelled as an explicit `enabled : Bool` parameter. -/

/-- One action item dict produced by `LLMEngine.generate_action_items`
and converted in the orchestrator to a Pydantic `ActionItem` with
`owner = None` and `due_in_days = None`. -/
structure ActionItem where
  type : String
  title : String
  description : String
  priority : String
  owner : Option String := none
  due_in_days : Option Int := none
  deriving Repr, DecidableEq

/-- The per-category templates of `LLMEngine._deterministic_hypothesis`. -/
def hypothesisTemplates : List (String × String) :=
  [("tool_schema_mismatch", "Tool call failed due to schema validation error. The tool arguments did not match the expected schema, likely due to API changes or incorrect parameter formatting."),
   ("rate_limited", "Tool call was rate limited (HTTP 429). The system exceeded the API rate limit, suggesting high request volume or insufficient rate limit configuration."),
   ("tool_permission", "Tool call failed due to permission error. The agent lacks necessary credentials or permissions to execute the requested action."),
   ("timeout", "Operation timed out before completion. The tool or step exceeded configured timeout limits, possibly due to slow external service or large data processing."),
   ("planner_loop", "Agent entered a retry loop with excessive retries. The planner may be stuck in a cycle, repeatedly attempting the same failed operation."),
   ("retrieval_empty", "Retrieval operation returned empty or insufficient results. The search/query did not find relevant data, possibly due to incorrect query formulation or missing data."),
   ("prompt_regression", "Prompt behavior changed unexpectedly. Model responses deviated from expected format, possibly due to prompt changes or model version update."),
   ("unknown", "Failure cause could not be determined from available telemetry. Additional instrumentation or logging may be needed.")]

/-- `LLMEngine._deterministic_hypothesis`. -/
def deterministic_hypothesis (category : String) (evidence_snippets : List String) : String :=
  let base := (hypothesisTemplates.lookup category).getD
    ((hypothesisTemplates.lookup "unknown").getD "")
  if evidence_snippets.isEmpty then base
  else base ++ " Evidence shows: " ++ String.intercalate "; " (evidence_snippets.take 2) ++ "."

/-- `LLMEngine.generate_hypothesis_description`: branches on `enabled`
but both branches call `_deterministic_hypothesis`. -/
def generate_hypothesis_description (enabled : Bool) (category : String)
    (evidence_snippets : List String) : String :=
  if !enabled then deterministic_hypothesis category evidence_snippets
  else deterministic_hypothesis category evidence_snippets

/-- The insufficient-evidence action list of `LLMEngine.generate_action_items`. -/
def insufficientActionItems : List ActionItem :=
  [{ type := "monitoring", title := "Enable detailed tracing",
     description := "Add structured logging and tracing to capture more diagnostic information.",
     priority := "high" },
   { type := "code_change", title := "Add structured error codes",
     description := "Implement error code taxonomy to enable better classification in future RCAs.",
     priority := "medium" }]

/-- The category-specific action templates of `LLMEngine.generate_action_items`. -/
def actionTemplates : List (String × List ActionItem) :=
  [("tool_schema_mismatch",
    [{ type := "code_change", title := "Update tool schema validation",
       description := "Review and update tool argument schemas to match current API contract. Add unit tests for schema validation.",
       priority := "high" },
     { type := "test", title := "Add integration tests for tool calls",
       description := "Create integration tests that validate tool schemas against live API endpoints.",
       priority := "medium" }]),
   ("rate_limited",
    [{ type := "change_config", title := "Implement rate limiting backoff",
       description := "Add exponential backoff and retry logic for rate-limited requests.",
       priority := "high" },
     { type := "monitoring", title := "Add rate limit monitoring",
       description := "Track API usage and alert before hitting rate limits.",
       priority := "high" }]),
   ("tool_permission",
    [{ type := "change_config", title := "Verify API credentials and permissions",
       description := "Audit all API keys and service account permissions. Update with required scopes.",
       priority := "critical" }]),
   ("timeout",
    [{ type := "change_config", title := "Increase timeout thresholds",
       description := "Review and adjust timeout configuration based on P95 latency metrics.",
       priority := "high" },
     { type := "code_change", title := "Optimize slow operations",
       description := "Profile and optimize operations that frequently approach timeout limits.",
       priority := "medium" }])]

/-- `LLMEngine.generate_action_items` — note the method never consults
`self.enabled`; the parameter is carried to state claim C10. -/
def generate_action_items (enabled : Bool) (category : String)
    (insufficient : Bool) : List ActionItem :=
  if insufficient then insufficientActionItems
  else (actionTemplates.lookup category).getD
    [{ type := "runbook", title := "Investigate root cause",
       description := "Manual investigation required for " ++ category ++ " failure category.",
       priority := "high" }]

/-- C10: report content is independent of the LLM toggle — for every
category and every snippet list, `generate_hypothesis_description` and
`generate_action_items` return the same values whether or not
`openai_api_key` is configured (the `enabled` flag changes only logging). -/
theorem llm_toggle_independence :
    ∀ (e1 e2 : Bool) (category : String) (snippets : List String) (insufficient : Bool),
      generate_hypothesis_description e1 category snippets
          = generate_hypothesis_description e2 category snippets
      ∧ generate_action_items e1 category insufficient
          = generate_action_items e2 category insufficient := by
  intro e1 e2 category snippets insufficient
  constructor
  · cases e1 <;> cases e2 <;> rfl
  · rfl

/-! ## Evidence collection and the sufficiency gate
(`app/use_cases/rca_orchestrator.py`) -/

/-- Evidence kinds (`EvidenceKind`). -/
inductive EvidenceKind
  | step
  | tool_call
  | guardrail
  deriving Repr, DecidableEq

/-- A JSON attribute value appearing in `EvidenceRef.attributes` or in a
timeline event's `details`. -/
inductive AttrVal
  | int (n : Int)
  | optInt (n : Option Int)
  | optStr (s : Option String)
  | str (s : String)
  | nat (n : Nat)
  | dict (d : List (String × String))
  deriving Repr, DecidableEq

/-- An evidence reference (`EvidenceRef`). -/
structure EvidenceRef where
  evidence_id : String
  kind : EvidenceKind
  ref_id : String
  title : String
  snippet : String
  attributes : List (String × AttrVal) := []
  deriving Repr, DecidableEq

/-- The tuple returned by `AgentRunRepository.get_agent_run_full`. -/
structure AgentRunData where
  run : AgentRun
  steps : List AgentStep
  tool_calls : List ToolCall
  guardrails : List GuardrailEvent
  deriving Repr, DecidableEq

/-- The three loops of `RCAOrchestrator._collect_evidence`, over the
already-loaded run data. -/
def collectEvidenceFrom (d : AgentRunData) : List EvidenceRef :=
  (d.steps.filter (fun s => s.status == "failure")).map (fun s =>
    { evidence_id := "ev_step_" ++ s.step_id,
      kind := .step,
      ref_id := s.step_id,
      title := "Failed step: " ++ s.name,
      snippet := s.output_summary.take 200,
      attributes := [("latency_ms", .int s.latency_ms), ("retries", .nat s.retries)] })
  ++ (d.tool_calls.filter (fun tc => tc.status == "failure")).map (fun tc =>
    { evidence_id := "ev_tool_" ++ tc.call_id,
      kind := .tool_call,
      ref_id := tc.call_id,
      title := "Failed tool call: " ++ tc.tool_name,
      snippet := (tc.error_message.getD "").take 200,
      attributes := [("error_class", .optStr tc.error_class),
                     ("status_code", .optInt tc.status_code),
                     ("latency_ms", .int tc.latency_ms)] })
  ++ d.guardrails.map (fun g =>
    { evidence_id := "ev_guard_" ++ g.event_id,
      kind := .guardrail,
      ref_id := g.event_id,
      title := "Guardrail: " ++ g.type,
      snippet := g.message.take 200,
      attributes := [("type", .str g.type)] })

/-- `RCAOrchestrator._check_insufficient_evidence`. -/
def check_insufficient_evidence (d : AgentRunData) (evidence_index : List EvidenceRef) : Bool :=
  if d.tool_calls.isEmpty && !(optTruthy d.run.error_type) && d.guardrails.isEmpty then
    true
  else if optContains d.run.error_message "internal server error"
      && !(evidence_index.any (fun ev => ev.kind == EvidenceKind.tool_call)) then
    true
  else
    false

/-- The sufficiency gate as the spec words it (§4.6.1): insufficient iff
the run has no tool calls, no run-level error_type and no guardrail
events, or the run's error_message contains "internal server error"
case-insensitively and the evidence index holds no tool-call evidence. -/
def insufficientSpec (d : AgentRunData) (evidence_index : List EvidenceRef) : Prop :=
  (d.tool_calls = [] ∧ optTruthy d.run.error_type = false ∧ d.guardrails = [])
  ∨ (optContains d.run.error_message "internal server error" = true
      ∧ ¬ ∃ ev ∈ evidence_index, ev.kind = EvidenceKind.tool_call)

/-- The string value of an `RCACategory` (`RCACategory.value`). -/
def RCACategory.value : RCACategory → String
  | .tool_schema_mismatch => "tool_schema_mismatch"
  | .rate_limited => "rate_limited"
  | .tool_permission => "tool_permission"
  | .timeout => "timeout"
  | .planner_loop => "planner_loop"
  | .retrieval_empty => "retrieval_empty"
  | .prompt_regression => "prompt_regression"
  | .unknown => "unknown"

/-- Python `str.title()` restricted to space-separated words. -/
def titleCaseWord (w : String) : String :=
  match w.data with
  | [] => ""
  | c :: rest => String.mk (c.toUpper :: rest.map Char.toLower)

/-- Title-casing as used for hypothesis titles and Jira summaries. -/
def titleCase (s : String) : String :=
  String.intercalate " " ((s.splitOn " ").map titleCaseWord)

/-- A hypothesis record (`Hypothesis`); `hypothesis_id` is minted from
the current timestamp. -/
structure Hypothesis where
  hypothesis_id : String
  title : String
  description : String
  evidence_ids : List String
  confidence : String
  verification_steps : List String
  mitigation : Option String := none
  deriving Repr, DecidableEq

/-- `RCAOrchestrator._generate_hypotheses_and_actions`. -/
def generate_hypotheses_and_actions (enabled : Bool) (now : Nat)
    (category : RCACategory) (evidence_index : List EvidenceRef)
    (insufficient_evidence : Bool) : List Hypothesis × List ActionItem :=
  if insufficient_evidence then
    ([], generate_action_items enabled category.value true)
  else
    let evidence_ids := evidence_index.map (fun ev => ev.evidence_id)
    let evidence_snippets := (evidence_index.take 3).map (fun ev => ev.snippet)
    let hypothesis_desc := generate_hypothesis_description enabled category.value evidence_snippets
    ([{ hypothesis_id := "hyp_" ++ toString now,
        title := titleCase (category.value.replace "_" " ") ++ " Root Cause",
        description := hypothesis_desc,
        evidence_ids := evidence_ids.take 5,
        confidence := if evidence_ids.length ≥ 2 then "high" else "medium",
        verification_steps :=
          ["Review tool call logs for detailed error traces",
           "Check external service status and API documentation",
           "Reproduce failure in isolated test environment"],
        mitigation := some "Apply recommended action items below" }],
     generate_action_items enabled category.value false)

/-- C2: the sufficiency gate holds exactly when the spec's disjunction
holds over the run and its computed evidence index, and in the
insufficient case the hypothesis list is empty. -/
theorem sufficiency_gate_iff :
    (∀ d : AgentRunData,
      check_insufficient_evidence d (collectEvidenceFrom d) = true
        ↔ insufficientSpec d (collectEvidenceFrom d))
    ∧ (∀ (enabled : Bool) (now : Nat) (c : RCACategory) (ev : List EvidenceRef),
        (generate_hypotheses_and_actions enabled now c ev true).1 = []) := by
  constructor
  · intro d
    unfold check_insufficient_evidence insufficientSpec
    by_cases h1 : (d.tool_calls.isEmpty && !(optTruthy d.run.error_type)
        && d.guardrails.isEmpty) = true
    · simp only [h1, if_true, true_iff]
      left
      simp only [Bool.and_eq_true, Bool.not_eq_true', List.isEmpty_iff] at h1
      exact ⟨h1.1.1, h1.1.2, h1.2⟩
    · simp only [h1, Bool.false_eq_true, if_false]
      by_cases h2 : (optContains d.run.error_message "internal server error"
          && !((collectEvidenceFrom d).any (fun ev => ev.kind == EvidenceKind.tool_call))) = true
      · simp only [h2, if_true, true_iff]
        right
        simp only [Bool.and_eq_true, Bool.not_eq_true', List.any_eq_false, beq_iff_eq] at h2
        exact ⟨h2.1, fun ⟨ev, hev, hk⟩ => h2.2 ev hev hk⟩
      · simp only [h2, Bool.false_eq_true, if_false, false_iff]
        intro hcase
        cases hcase with
        | inl h =>
          apply h1
          simp only [Bool.and_eq_true, Bool.not_eq_true', List.isEmpty_iff]
          exact ⟨⟨h.1, h.2.1⟩, h.2.2⟩
        | inr h =>
          apply h2
          simp only [Bool.and_eq_true, Bool.not_eq_true', List.any_eq_false, beq_iff_eq]
          exact ⟨h.1, fun ev hev hk => h.2 ⟨ev, hev, hk⟩⟩
  · intro enabled now c ev
    rfl

/-! ## Relational state (`app/models/*.py`) -/

/-- An RCArun row (`rca_runs` table). -/
structure RCArun where
  rca_run_id : String
  run_id : String
  status : String
  step : String := ""
  pct : Int := 0
  message : String := ""
  created_at : Nat := 0
  started_at : Option Nat := none
  ended_at : Option Nat := none
  error_message : Option String := none
  deriving Repr, DecidableEq

/-- The metrics snapshot of a report (`MetricsSnapshot`). -/
structure MetricsSnapshot where
  top_failing_tool : Option String := none
  max_step_latency_ms : Int := 0
  total_retries : Nat := 0
  total_cost_usd : Option Int := none
  deriving Repr, DecidableEq

/-- The ticket fields of a report (`JiraFields`). -/
structure JiraFields where
  jira_summary : String
  jira_description_md : String
  deriving Repr, DecidableEq

/-- The structured report document (Pydantic `RCAReport`). -/
structure RCAReportDoc where
  report_id : String
  rca_run_id : String
  run_id : String
  generated_at : Nat
  category : RCACategory
  insufficient_evidence : Bool
  insufficient_reason : Option String
  evidence_index : List EvidenceRef
  hypotheses : List Hypothesis
  action_items : List ActionItem
  metrics_snapshot : MetricsSnapshot
  jira_fields : JiraFields
  deriving Repr, DecidableEq

/-- An RCAReport row (`rca_reports` table; `rca_run_id` is unique). -/
structure RCAReportRow where
  report_id : String
  rca_run_id : String
  run_id : String
  report_json : RCAReportDoc
  insufficient_evidence : Bool
  category : String
  generated_at : Nat := 0
  deriving Repr, DecidableEq

/-- The relational store: child rows are keyed by their `run_id`. -/
structure Db where
  agent_runs : List AgentRun := []
  steps : List (String × AgentStep) := []
  tool_calls : List (String × ToolCall) := []
  guardrails : List (String × GuardrailEvent) := []
  rca_runs : List RCArun := []
  rca_reports : List RCAReportRow := []
  deriving Repr, DecidableEq

/-! ## Agent-run repository (`app/repositories/agent_run_repo.py`) -/

/-- `AgentRunRepository.get_agent_run` (`session.get` by primary key). -/
def get_agent_run (db : Db) (run_id : String) : Option AgentRun :=
  db.agent_runs.find? (fun r => r.run_id == run_id)

/-- Stable insert: place `x` after every element `y` with `le y x`. -/
def insertRight {α : Type} (le : α → α → Bool) (x : α) : List α → List α
  | [] => [x]
  | y :: ys => if le y x then y :: insertRight le x ys else x :: y :: ys

/-- A stable sort by `le`, fully computable by kernel reduction; models
the deterministic `ORDER BY` of the repository queries. -/
def stableSortBy {α : Type} (le : α → α → Bool) (l : List α) : List α :=
  l.foldl (fun acc x => insertRight le x acc) []

/-- `AgentRunRepository.get_agent_run_full`: run with steps ordered by
`started_at`, tool calls unordered, guardrails ordered by `created_at`. -/
def get_agent_run_full (db : Db) (run_id : String) : Option AgentRunData :=
  match get_agent_run db run_id with
  | none => none
  | some run =>
    some { run := run,
           steps := stableSortBy (fun a b => decide (a.started_at ≤ b.started_at))
             ((db.steps.filter (fun q => q.1 == run_id)).map Prod.snd),
           tool_calls := (db.tool_calls.filter (fun q => q.1 == run_id)).map Prod.snd,
           guardrails := stableSortBy (fun a b => decide (a.created_at ≤ b.created_at))
             ((db.guardrails.filter (fun q => q.1 == run_id)).map Prod.snd) }

/-- The ingest payload (`AgentRunPayload`); a missing `run_id` becomes
`""` in the repository (`payload.run_id or ""`). -/
structure AgentRunPayload where
  run_id : Option String := none
  agent_name : String
  agent_version : String
  model : String
  environment : String
  started_at : Nat
  ended_at : Nat
  status : String
  error_type : Option String := none
  error_message : Option String := none
  trace_id : Option String := none
  correlation_ids : List String := []
  steps : List AgentStep := []
  tool_calls : List ToolCall := []
  guardrail_events : List GuardrailEvent := []
  cost_total_usd : Option Int := none
  deriving Repr, DecidableEq

/-- The scalar fields written by the upsert (payload minus children);
`created_at` is not a payload field and is kept (update) or minted
(insert). -/
def payloadScalars (p : AgentRunPayload) (rid : String) (created_at : Nat) : AgentRun :=
  { run_id := rid, agent_name := p.agent_name, agent_version := p.agent_version,
    model := p.model, environment := p.environment, status := p.status,
    started_at := p.started_at, ended_at := p.ended_at,
    error_type := p.error_type, error_message := p.error_message,
    trace_id := p.trace_id, correlation_ids := p.correlation_ids,
    cost_total_usd := p.cost_total_usd,
    created_at := created_at }

/-- `AgentRunRepository.upsert_agent_run`: overwrite scalars and delete
all existing children when the run exists, then insert the payload's
children; the session buffers everything and commits once, so the whole
operation is a single state transition. -/
def upsert_agent_run (db : Db) (now : Nat) (p : AgentRunPayload) : Db :=
  let rid := p.run_id.getD ""
  match db.agent_runs.find? (fun r => r.run_id == rid) with
  | some existing =>
    { db with
      agent_runs := db.agent_runs.map (fun r =>
        if r.run_id == rid then payloadScalars p rid existing.created_at else r),
      steps := db.steps.filter (fun q => !(q.1 == rid)) ++ p.steps.map (fun s => (rid, s)),
      tool_calls := db.tool_calls.filter (fun q => !(q.1 == rid))
        ++ p.tool_calls.map (fun t => (rid, t)),
      guardrails := db.guardrails.filter (fun q => !(q.1 == rid))
        ++ p.guardrail_events.map (fun g => (rid, g)) }
  | none =>
    { db with
      agent_runs := db.agent_runs ++ [payloadScalars p rid now],
      steps := db.steps ++ p.steps.map (fun s => (rid, s)),
      tool_calls := db.tool_calls ++ p.tool_calls.map (fun t => (rid, t)),
      guardrails := db.guardrails ++ p.guardrail_events.map (fun g => (rid, g)) }

/-- Stored steps of a run, in table order. -/
def stepsOf (db : Db) (rid : String) : List AgentStep :=
  (db.steps.filter (fun q => q.1 == rid)).map Prod.snd

/-- Stored tool calls of a run, in table order. -/
def toolCallsOf (db : Db) (rid : String) : List ToolCall :=
  (db.tool_calls.filter (fun q => q.1 == rid)).map Prod.snd

/-- Stored guardrail events of a run, in table order. -/
def guardrailsOf (db : Db) (rid : String) : List GuardrailEvent :=
  (db.guardrails.filter (fun q => q.1 == rid)).map Prod.snd

/-- After deleting every child of `rid`, none is left. -/
theorem filter_key_of_deleted {α : Type} (rid : String) (l : List (String × α)) :
    (l.filter (fun q => !(q.1 == rid))).filter (fun q => q.1 == rid) = [] := by
  induction l with
  | nil => rfl
  | cons a t ih =>
    by_cases h : (a.1 == rid) = true
    · simp [List.filter_cons, h, ih]
    · simp only [Bool.not_eq_true] at h
      simp [List.filter_cons, h, ih]

/-- Freshly inserted children of `rid` all carry key `rid`. -/
theorem filter_key_of_inserted {α : Type} (rid : String) (xs : List α) :
    ((xs.map (fun x => (rid, x))).filter (fun q => q.1 == rid)).map Prod.snd = xs := by
  induction xs with
  | nil => rfl
  | cons x t ih => simp [List.filter_cons, ih]

/-- Children of `rid` after a delete-then-insert are exactly the inserted ones. -/
theorem children_after_replace {α : Type} (rid : String) (l : List (String × α)) (xs : List α) :
    (((l.filter (fun q => !(q.1 == rid)) ++ xs.map (fun x => (rid, x))).filter
        (fun q => q.1 == rid)).map Prod.snd) = xs := by
  rw [List.filter_append, filter_key_of_deleted, List.nil_append, filter_key_of_inserted]

/-- Children of another run are untouched by a delete-then-insert on `rid`. -/
theorem children_frame {α : Type} (rid other : String) (hne : other ≠ rid)
    (l : List (String × α)) (xs : List α) :
    (((l.filter (fun q => !(q.1 == rid)) ++ xs.map (fun x => (rid, x))).filter
        (fun q => q.1 == other)).map Prod.snd)
      = (l.filter (fun q => q.1 == other)).map Prod.snd := by
  rw [List.filter_append]
  have h1 : (l.filter (fun q => !(q.1 == rid))).filter (fun q => q.1 == other)
      = l.filter (fun q => q.1 == other) := by
    induction l with
    | nil => rfl
    | cons a t ih =>
      by_cases h : (a.1 == other) = true
      · have hrid : (a.1 == rid) = false := by
          have : a.1 = other := by simpa [beq_iff_eq] using h
          simp [this, hne]
        simp [List.filter_cons, h, hrid, ih]
      · simp only [Bool.not_eq_true] at h
        by_cases h2 : (a.1 == rid) = true
        · simp [List.filter_cons, h, h2, ih]
        · simp only [Bool.not_eq_true] at h2
          simp [List.filter_cons, h, h2, ih]
  have h2 : (xs.map (fun x => (rid, x))).filter (fun q => q.1 == other) = [] := by
    induction xs with
    | nil => rfl
    | cons x t ih =>
      have : (rid == other) = false := by
        simp [beq_iff_eq]
        exact fun hco => hne hco.symm
      simp [List.filter_cons, this, ih]
  rw [h1, h2, List.append_nil]

/-- C3: re-ingest is a full replacement — for an already-existing
`run_id`, the upsert deletes all existing child steps, tool calls and
guardrail events and inserts the payload's children, so the stored
children afterwards are exactly the new payload's children (hence equal
counts and no residue), and children of every other run are untouched.
The session buffers all changes and commits once, so in this embedding
the whole replacement is a single state transition. -/
theorem reingest_full_replacement (db : Db) (now : Nat) (p : AgentRunPayload)
    (hexists : (db.agent_runs.find? (fun r => r.run_id == p.run_id.getD "")).isSome = true) :
    stepsOf (upsert_agent_run db now p) (p.run_id.getD "") = p.steps
    ∧ toolCallsOf (upsert_agent_run db now p) (p.run_id.getD "") = p.tool_calls
    ∧ guardrailsOf (upsert_agent_run db now p) (p.run_id.getD "") = p.guardrail_events
    ∧ ∀ other, other ≠ p.run_id.getD "" →
        stepsOf (upsert_agent_run db now p) other = stepsOf db other
        ∧ toolCallsOf (upsert_agent_run db now p) other = toolCallsOf db other
        ∧ guardrailsOf (upsert_agent_run db now p) other = guardrailsOf db other := by
  rcases Option.isSome_iff_exists.mp hexists with ⟨existing, hfind⟩
  unfold upsert_agent_run stepsOf toolCallsOf guardrailsOf
  simp only [hfind]
  refine ⟨children_after_replace _ _ _, children_after_replace _ _ _,
    children_after_replace _ _ _, fun other hne => ?_⟩
  exact ⟨children_frame _ _ hne _ _, children_frame _ _ hne _ _, children_frame _ _ hne _ _⟩

/-- A pre-existing run with one old step, one old tool call and one old
guardrail event. -/
def dbWithOldChildren : Db :=
  { agent_runs := [{ run_id := "r1", agent_name := "a", agent_version := "1",
                     model := "m", environment := "dev", status := "failure",
                     started_at := 0, ended_at := 1 }],
    steps := [("r1", { step_id := "old-step", name := "Old", status := "success",
                       started_at := 0, ended_at := 1 })],
    tool_calls := [("r1", { call_id := "old-call", step_id := "old-step",
                            tool_name := "t", status := "success" })],
    guardrails := [("r1", { event_id := "old-guard", type := "other", message := "old" })] }

/-- A re-ingest payload for `r1` with one new step and no other children. -/
def reingestPayload : AgentRunPayload :=
  { run_id := some "r1", agent_name := "a", agent_version := "2",
    model := "m", environment := "dev", status := "success",
    started_at := 2, ended_at := 3,
    steps := [{ step_id := "new-step", name := "New", status := "success",
                started_at := 2, ended_at := 3 }] }

/-- Witness for C3 at a concrete re-ingest. -/
theorem reingest_full_replacement_witness :
    stepsOf (upsert_agent_run dbWithOldChildren 9 reingestPayload) "r1" = reingestPayload.steps
    ∧ toolCallsOf (upsert_agent_run dbWithOldChildren 9 reingestPayload) "r1" = []
    ∧ guardrailsOf (upsert_agent_run dbWithOldChildren 9 reingestPayload) "r1" = [] := by
  have h := reingest_full_replacement dbWithOldChildren 9 reingestPayload (by decide)
  exact ⟨h.1, h.2.1, h.2.2.1⟩

/-! ## RCA repository (`app/repositories/rca_repo.py`) and idempotent
RCA creation (`app/api/rca_runs.py`) -/

/-- `RCARepository.get_rca_run` (`session.get` by primary key). -/
def get_rca_run (db : Db) (rca_run_id : String) : Option RCArun :=
  db.rca_runs.find? (fun r => r.rca_run_id == rca_run_id)

/-- `RCARepository.find_recent_rca_run`: the most recent RCArun for a
`run_id` with status queued or running and `created_at ≥ now − minutes`
(time in minutes; `order_by created_at desc` then `first()`). -/
def find_recent_rca_run (db : Db) (run_id : String) (now : Nat) (minutes : Nat) :
    Option RCArun :=
  ((db.rca_runs.filter (fun r =>
      r.run_id == run_id
      && (r.status == "queued" || r.status == "running")
      && decide (now - minutes ≤ r.created_at))).mergeSort
    (fun a b => decide (b.created_at ≤ a.created_at))).head?

/-- The row inserted by `RCARepository.create_rca_run`. -/
def newRcaRow (rca_run_id run_id : String) (now : Nat) : RCArun :=
  { rca_run_id := rca_run_id, run_id := run_id, status := "queued",
    step := "", pct := 0, message := "RCA job queued", created_at := now }

/-- HTTP failure of an endpoint. -/
inductive HttpError
  | notFound
  deriving Repr, DecidableEq

/-- Result of `POST /agent-runs/{run_id}/rca-runs`: the returned id, the
store afterwards, and the jobs enqueued onto the queue (each job carries
the `rca_run_id` as its sole argument). -/
structure CreateRcaResult where
  rca_run_id : String
  db : Db
  enqueued : List String
  deriving Repr, DecidableEq

/-- `create_rca_run` of `app/api/rca_runs.py`: 404 when the agent run is
absent; return the recent queued/running RCArun's id when one exists
within 10 minutes; otherwise mint `fresh`, insert a queued RCArun and
enqueue one job. -/
def create_rca_run (db : Db) (now : Nat) (fresh : String) (run_id : String) :
    Except HttpError CreateRcaResult :=
  match get_agent_run db run_id with
  | none => .error .notFound
  | some _ =>
    match find_recent_rca_run db run_id now 10 with
    | some existing => .ok { rca_run_id := existing.rca_run_id, db := db, enqueued := [] }
    | none =>
      .ok { rca_run_id := fresh,
            db := { db with rca_runs := db.rca_runs ++ [newRcaRow fresh run_id now] },
            enqueued := [fresh] }

/-- `find_recent_rca_run` is `none` exactly when no row matches its filter. -/
theorem find_recent_none_iff (db : Db) (run_id : String) (now minutes : Nat) :
    find_recent_rca_run db run_id now minutes = none
      ↔ db.rca_runs.filter (fun r =>
          r.run_id == run_id
          && (r.status == "queued" || r.status == "running")
          && decide (now - minutes ≤ r.created_at)) = [] := by
  unfold find_recent_rca_run
  rw [List.head?_eq_none_iff]
  constructor
  · intro h
    have hperm := List.mergeSort_perm (db.rca_runs.filter (fun r =>
      r.run_id == run_id
      && (r.status == "queued" || r.status == "running")
      && decide (now - minutes ≤ r.created_at))) (fun a b => decide (b.created_at ≤ a.created_at))
    rw [h] at hperm
    exact hperm.symm.eq_nil
  · intro h
    rw [h]
    exact List.Perm.eq_nil (List.mergeSort_perm [] _)

/-- C4: RCA creation is idempotent within the 10-minute window — when
the agent run is absent the request fails `notFound`; when a recent
queued/running RCArun exists its id is returned with no insert and no
enqueue; otherwise a queued RCArun is inserted and exactly one job
carrying the fresh id is enqueued, and a second creation within 10
minutes (with no intervening operation) returns the same id with no new
row and no job. -/
theorem rca_creation_idempotent :
    (∀ (db : Db) (now : Nat) (fresh run_id : String),
      get_agent_run db run_id = none →
      create_rca_run db now fresh run_id = .error .notFound)
    ∧ (∀ (db : Db) (now : Nat) (fresh run_id : String) (e : RCArun),
      (get_agent_run db run_id).isSome = true →
      find_recent_rca_run db run_id now 10 = some e →
      create_rca_run db now fresh run_id = .ok ⟨e.rca_run_id, db, []⟩)
    ∧ (∀ (db : Db) (now1 now2 : Nat) (fresh fresh2 run_id : String),
      (get_agent_run db run_id).isSome = true →
      find_recent_rca_run db run_id now1 10 = none →
      now1 ≤ now2 → now2 ≤ now1 + 10 →
      create_rca_run db now1 fresh run_id
          = .ok ⟨fresh, { db with rca_runs := db.rca_runs ++ [newRcaRow fresh run_id now1] },
                 [fresh]⟩
        ∧ create_rca_run { db with rca_runs := db.rca_runs ++ [newRcaRow fresh run_id now1] }
            now2 fresh2 run_id
          = .ok ⟨fresh, { db with rca_runs := db.rca_runs ++ [newRcaRow fresh run_id now1] },
                 []⟩) := by
  refine ⟨fun db now fresh run_id habs => ?_, fun db now fresh run_id e hrun hfind => ?_,
    fun db now1 now2 fresh fresh2 run_id hrun hnone h12 hwin => ?_⟩
  · unfold create_rca_run
    rw [habs]
  · rcases Option.isSome_iff_exists.mp hrun with ⟨run, hget⟩
    unfold create_rca_run
    rw [hget, hfind]
  · rcases Option.isSome_iff_exists.mp hrun with ⟨run, hget⟩
    have hfilter1 := (find_recent_none_iff db run_id now1 10).mp hnone
    constructor
    · unfold create_rca_run
      rw [hget, hnone]
    · have hget2 : get_agent_run
          { db with rca_runs := db.rca_runs ++ [newRcaRow fresh run_id now1] } run_id
          = some run := hget
      have hfilter2 : ({ db with
          rca_runs := db.rca_runs ++ [newRcaRow fresh run_id now1] } : Db).rca_runs.filter
            (fun r => r.run_id == run_id
              && (r.status == "queued" || r.status == "running")
              && decide (now2 - 10 ≤ r.created_at))
          = [newRcaRow fresh run_id now1] := by
        rw [List.filter_append]
        have hold : db.rca_runs.filter
            (fun r => r.run_id == run_id
              && (r.status == "queued" || r.status == "running")
              && decide (now2 - 10 ≤ r.created_at)) = [] := by
          rw [List.filter_eq_nil_iff]
          intro r hr
          have h1 := List.filter_eq_nil_iff.mp hfilter1 r hr
          simp only [Bool.not_eq_true] at h1 ⊢
          cases hab : (r.run_id == run_id && (r.status == "queued" || r.status == "running")) with
          | false => rw [Bool.false_and]
          | true =>
            rw [hab, Bool.true_and] at h1
            rw [Bool.true_and]
            simp only [decide_eq_false_iff_not, not_le] at h1 ⊢
            calc r.created_at < now1 - 10 := h1
              _ ≤ now2 - 10 := Nat.sub_le_sub_right h12 10
        rw [hold, List.nil_append]
        have hnewmatch : ((newRcaRow fresh run_id now1).run_id == run_id
            && ((newRcaRow fresh run_id now1).status == "queued"
              || (newRcaRow fresh run_id now1).status == "running")
            && decide (now2 - 10 ≤ (newRcaRow fresh run_id now1).created_at)) = true := by
          simp [newRcaRow, Nat.sub_le_iff_le_add.mpr hwin]
        simp only [List.filter_cons, List.filter_nil, hnewmatch, if_true]
      have hfind2 : find_recent_rca_run
          { db with rca_runs := db.rca_runs ++ [newRcaRow fresh run_id now1] } run_id now2 10
          = some (newRcaRow fresh run_id now1) := by
        unfold find_recent_rca_run
        rw [hfilter2, List.mergeSort_singleton]
        rfl
      unfold create_rca_run
      rw [hget2, hfind2]
      rfl

/-- A store holding one agent run `r1` and no RCA runs. -/
def dbOneRun : Db :=
  { agent_runs := [{ run_id := "r1", agent_name := "a", agent_version := "1",
                     model := "m", environment := "dev", status := "failure",
                     started_at := 0, ended_at := 1 }] }

/-- Witness for C4: two creations five minutes apart on a fresh store
return the same `rca_run_id`; the first enqueues one job, the second
none. -/
theorem rca_creation_idempotent_witness :
    create_rca_run dbOneRun 100 "f1" "r1"
        = .ok ⟨"f1", { dbOneRun with rca_runs := dbOneRun.rca_runs ++ [newRcaRow "f1" "r1" 100] },
               ["f1"]⟩
      ∧ create_rca_run { dbOneRun with
            rca_runs := dbOneRun.rca_runs ++ [newRcaRow "f1" "r1" 100] } 105 "f2" "r1"
        = .ok ⟨"f1", { dbOneRun with rca_runs := dbOneRun.rca_runs ++ [newRcaRow "f1" "r1" 100] },
               []⟩ :=
  rca_creation_idempotent.2.2 dbOneRun 100 105 "f1" "f2" "r1"
    (by decide) ((find_recent_none_iff dbOneRun "r1" 100 10).mpr rfl)
    (by decide) (by decide)

/-! ## Timeline (`AgentRunRepository.get_timeline`,
`GET /agent-runs/{run_id}/timeline`) -/

/-- A merged timeline event (`TimelineEvent`). -/
structure TimelineEvent where
  event_id : String
  event_type : String
  timestamp : Nat
  name : String
  status : String
  details : List (String × AttrVal) := []
  deriving Repr, DecidableEq

/-- The unsorted event construction of `get_timeline`: one event per
step, tool call (timestamp from the owning step's `started_at` when
resolvable, else the current time) and guardrail event. -/
def timelineEvents (d : AgentRunData) (now : Nat) : List TimelineEvent :=
  d.steps.map (fun s =>
    { event_id := s.step_id, event_type := "step", timestamp := s.started_at,
      name := s.name, status := s.status,
      details := [("input_summary", .str s.input_summary),
                  ("output_summary", .str s.output_summary),
                  ("latency_ms", .int s.latency_ms),
                  ("retries", .nat s.retries)] })
  ++ d.tool_calls.map (fun tc =>
    { event_id := tc.call_id, event_type := "tool_call",
      timestamp := match d.steps.find? (fun s => s.step_id == tc.step_id) with
                   | some s => s.started_at
                   | none => now,
      name := tc.tool_name, status := tc.status,
      details := [("args_json", .dict tc.args_json),
                  ("result_summary", .str tc.result_summary),
                  ("error_class", .optStr tc.error_class),
                  ("error_message", .optStr tc.error_message),
                  ("latency_ms", .int tc.latency_ms)] })
  ++ d.guardrails.map (fun g =>
    { event_id := g.event_id, event_type := "guardrail", timestamp := g.created_at,
      name := g.type, status := "triggered",
      details := [("message", .str g.message)] })

/-- `AgentRunRepository.get_timeline`: build the merged events and sort
by timestamp (Python's stable sort is modelled by the stable merge sort). -/
def get_timeline (db : Db) (now : Nat) (run_id : String) : List TimelineEvent :=
  match get_agent_run_full db run_id with
  | none => []
  | some d => (timelineEvents d now).mergeSort (fun a b => decide (a.timestamp ≤ b.timestamp))

/-- `get_agent_run_timeline` of `app/api/agent_runs.py`: the endpoint
raises 404 when the computed timeline is empty (`if not timeline`). -/
def get_agent_run_timeline (db : Db) (now : Nat) (run_id : String) :
    Except HttpError (List TimelineEvent) :=
  if (get_timeline db now run_id).isEmpty then .error .notFound
  else .ok (get_timeline db now run_id)

/-- A store with an existing run `r-empty` that has no children at all. -/
def dbEmptyRun : Db :=
  { agent_runs := [{ run_id := "r-empty", agent_name := "a", agent_version := "1",
                     model := "m", environment := "dev", status := "success",
                     started_at := 0, ended_at := 1 }] }

/-- C9 counterexample: the run `r-empty` exists, yet the timeline
endpoint returns 404 for it — refuting "404 if and only if no agent run
with that run_id exists". -/
theorem timeline_404_on_existing_run_cex :
    (get_agent_run dbEmptyRun "r-empty").isSome = true
    ∧ get_agent_run_timeline dbEmptyRun 7 "r-empty" = .error .notFound := by
  have h1 : get_agent_run_full dbEmptyRun "r-empty"
      = some { run := { run_id := "r-empty", agent_name := "a", agent_version := "1",
                        model := "m", environment := "dev", status := "success",
                        started_at := 0, ended_at := 1 },
               steps := [], tool_calls := [], guardrails := [] } := by
    unfold get_agent_run_full get_agent_run dbEmptyRun
    simp [stableSortBy]
  constructor
  · decide
  · unfold get_agent_run_timeline get_timeline
    rw [h1]
    simp [timelineEvents, List.mergeSort_nil]

/-- The comparison used by the timeline sort is transitive. -/
theorem tsLe_trans (a b c : TimelineEvent) :
    (decide (a.timestamp ≤ b.timestamp)) = true →
    (decide (b.timestamp ≤ c.timestamp)) = true →
    (decide (a.timestamp ≤ c.timestamp)) = true := by
  simp only [decide_eq_true_eq]
  exact Nat.le_trans

/-- The comparison used by the timeline sort is total. -/
theorem tsLe_total (a b : TimelineEvent) :
    ((decide (a.timestamp ≤ b.timestamp)) || (decide (b.timestamp ≤ a.timestamp))) = true := by
  simp only [Bool.or_eq_true, decide_eq_true_eq]
  exact Nat.le_total _ _

/-- C9 amended: the timeline endpoint returns 404 exactly when the run
is absent or its timeline is empty (an existing run with no events also
404s); and every successful response is a permutation of the constructed
step/tool-call/guardrail events (tool-call timestamps resolved from the
owning step, else the current time) sorted by timestamp ascending. -/
theorem timeline_endpoint_amended :
    ∀ (db : Db) (now : Nat) (rid : String),
      (get_agent_run_timeline db now rid = .error .notFound
        ↔ (get_agent_run db rid = none
            ∨ ∃ d, get_agent_run_full db rid = some d ∧ timelineEvents d now = []))
      ∧ ∀ tl, get_agent_run_timeline db now rid = .ok tl →
          ∃ d, get_agent_run_full db rid = some d
            ∧ tl.Perm (timelineEvents d now)
            ∧ List.Pairwise (fun a b => a.timestamp ≤ b.timestamp) tl := by
  intro db now rid
  cases hga : get_agent_run db rid with
  | none =>
    have hfull : get_agent_run_full db rid = none := by
      unfold get_agent_run_full
      rw [hga]
    have htl : get_timeline db now rid = [] := by
      unfold get_timeline
      rw [hfull]
    constructor
    · unfold get_agent_run_timeline
      rw [htl]
      simp
    · intro tl htlok
      unfold get_agent_run_timeline at htlok
      rw [htl] at htlok
      simp at htlok
  | some run =>
    have hfull : get_agent_run_full db rid
        = some { run := run,
                 steps := stableSortBy (fun a b => decide (a.started_at ≤ b.started_at))
                   ((db.steps.filter (fun q => q.1 == rid)).map Prod.snd),
                 tool_calls := (db.tool_calls.filter (fun q => q.1 == rid)).map Prod.snd,
                 guardrails := stableSortBy (fun a b => decide (a.created_at ≤ b.created_at))
                   ((db.guardrails.filter (fun q => q.1 == rid)).map Prod.snd) } := by
      unfold get_agent_run_full
      rw [hga]
    set d := ({ run := run,
                steps := stableSortBy (fun a b => decide (a.started_at ≤ b.started_at))
                  ((db.steps.filter (fun q => q.1 == rid)).map Prod.snd),
                tool_calls := (db.tool_calls.filter (fun q => q.1 == rid)).map Prod.snd,
                guardrails := stableSortBy (fun a b => decide (a.created_at ≤ b.created_at))
                  ((db.guardrails.filter (fun q => q.1 == rid)).map Prod.snd) } : AgentRunData)
      with hd
    have htl : get_timeline db now rid
        = (timelineEvents d now).mergeSort (fun a b => decide (a.timestamp ≤ b.timestamp)) := by
      unfold get_timeline
      rw [hfull]
    have hperm := List.mergeSort_perm (timelineEvents d now)
      (fun a b => decide (a.timestamp ≤ b.timestamp))
    constructor
    · unfold get_agent_run_timeline
      rw [htl]
      by_cases hempty : timelineEvents d now = []
      · have : (timelineEvents d now).mergeSort
            (fun a b => decide (a.timestamp ≤ b.timestamp)) = [] := by
          rw [hempty]
          exact List.Perm.eq_nil (List.mergeSort_perm [] _)
        rw [this]
        simp only [List.isEmpty_nil, if_true, true_iff]
        exact Or.inr ⟨d, hfull, hempty⟩
      · have hne : (timelineEvents d now).mergeSort
            (fun a b => decide (a.timestamp ≤ b.timestamp)) ≠ [] := by
          intro hcon
          rw [hcon] at hperm
          exact hempty hperm.symm.eq_nil
        have hfalse : ((timelineEvents d now).mergeSort
            (fun a b => decide (a.timestamp ≤ b.timestamp))).isEmpty = false := by
          rw [List.isEmpty_eq_false_iff_exists_mem]
          rcases List.exists_mem_of_ne_nil _ hne with ⟨x, hx⟩
          exact ⟨x, hx⟩
        rw [hfalse]
        simp only [Bool.false_eq_true, if_false]
        constructor
        · intro hcon
          exact absurd hcon (by simp)
        · rintro (h | ⟨d2, hd2, hev2⟩)
          · exact Option.noConfusion h
          · rw [hfull] at hd2
            injection hd2 with hdd
            exact absurd (hdd ▸ hev2) hempty
    · intro tl htlok
      unfold get_agent_run_timeline at htlok
      rw [htl] at htlok
      by_cases hempty : timelineEvents d now = []
      · have hnil : (timelineEvents d now).mergeSort
            (fun a b => decide (a.timestamp ≤ b.timestamp)) = [] := by
          rw [hempty]
          exact List.Perm.eq_nil (List.mergeSort_perm [] _)
        rw [hnil] at htlok
        simp at htlok
      · have hne : (timelineEvents d now).mergeSort
            (fun a b => decide (a.timestamp ≤ b.timestamp)) ≠ [] := by
          intro hcon
          rw [hcon] at hperm
          exact hempty hperm.symm.eq_nil
        have hfalse : ((timelineEvents d now).mergeSort
            (fun a b => decide (a.timestamp ≤ b.timestamp))).isEmpty = false := by
          rw [List.isEmpty_eq_false_iff_exists_mem]
          rcases List.exists_mem_of_ne_nil _ hne with ⟨x, hx⟩
          exact ⟨x, hx⟩
        rw [hfalse] at htlok
        simp only [Bool.false_eq_true, if_false, Except.ok.injEq] at htlok
        refine ⟨d, hfull, ?_, ?_⟩
        · rw [← htlok]
          exact hperm
        · rw [← htlok]
          have hsorted := @List.sorted_mergeSort TimelineEvent
            (fun a b => decide (a.timestamp ≤ b.timestamp))
            tsLe_trans tsLe_total (timelineEvents d now)
          exact hsorted.imp (fun h => by simpa using h)

/-- A store with an existing run `r-one` that has exactly one step. -/
def dbOneStep : Db :=
  { agent_runs := [{ run_id := "r-one", agent_name := "a", agent_version := "1",
                     model := "m", environment := "dev", status := "success",
                     started_at := 0, ended_at := 9 }],
    steps := [("r-one", { step_id := "s1", name := "Plan", status := "success",
                          started_at := 4, ended_at := 5 })] }

/-- The single timeline event of `dbOneStep`. -/
def oneStepEvent : TimelineEvent :=
  { event_id := "s1", event_type := "step", timestamp := 4,
    name := "Plan", status := "success",
    details := [("input_summary", .str ""), ("output_summary", .str ""),
                ("latency_ms", .int 0), ("retries", .nat 0)] }

/-- Witness for the amended C9 at a concrete one-step run. -/
theorem timeline_endpoint_amended_witness :
    ∃ d, get_agent_run_full dbOneStep "r-one" = some d
      ∧ List.Perm [oneStepEvent] (timelineEvents d 7)
      ∧ List.Pairwise (fun a b => a.timestamp ≤ b.timestamp) [oneStepEvent] :=
  (timeline_endpoint_amended dbOneStep 7 "r-one").2 [oneStepEvent] (by
    unfold get_agent_run_timeline get_timeline get_agent_run_full get_agent_run dbOneStep
    simp [timelineEvents, stableSortBy, insertRight, List.mergeSort_singleton,
      List.mergeSort_nil, oneStepEvent])

/-! ## Metrics and ticket fields (`RCAOrchestrator._compile_metrics`,
`RCAOrchestrator._generate_jira_fields`) -/

/-- Python `max(xs, default=0)` over integers. -/
def maxIntOrZero : List Int → Int
  | [] => 0
  | x :: xs => xs.foldl max x

/-- The arg-max of failure counts across tool calls, ties broken by
first-seen tool name (Python dict insertion order plus `max`). -/
def top_failing_tool (tool_calls : List ToolCall) : Option String :=
  let names := (tool_calls.filter (fun tc => tc.status == "failure")).map
    (fun tc => tc.tool_name)
  let uniq := names.foldl
    (fun acc n => if acc.contains n then acc else acc ++ [n]) ([] : List String)
  uniq.foldl (fun best n =>
    match best with
    | none => some n
    | some b =>
      if (names.filter (fun m => m == n)).length > (names.filter (fun m => m == b)).length
      then some n else best) none

/-- `RCAOrchestrator._compile_metrics`. -/
def compile_metrics (d : AgentRunData) : MetricsSnapshot :=
  { top_failing_tool := top_failing_tool d.tool_calls,
    max_step_latency_ms := maxIntOrZero (d.steps.map (fun s => s.latency_ms)),
    total_retries := (d.steps.map (fun s => s.retries)).sum
      + (d.tool_calls.map (fun tc => tc.retries)).sum,
    total_cost_usd := d.run.cost_total_usd }

/-- `RCAOrchestrator._generate_jira_fields`. -/
def generate_jira_fields (run_id : String) (category : RCACategory)
    (hypotheses : List Hypothesis) (action_items : List ActionItem)
    (insufficient_evidence : Bool) : JiraFields :=
  let summary := "[AgentOps RCA] " ++ titleCase (category.value.replace "_" " ")
    ++ " - Run " ++ run_id.take 8
  let parts :=
    ["# RCA Report: " ++ category.value,
     "**Run ID:** " ++ run_id,
     "**Insufficient Evidence:** " ++ (if insufficient_evidence then "True" else "False"),
     "",
     "## Hypotheses"]
    ++ (if hypotheses.isEmpty then
          ["*Insufficient evidence to form hypotheses. Data collection required.*"]
        else hypotheses.flatMap (fun h =>
          ["### " ++ h.title,
           "- **Confidence:** " ++ h.confidence,
           "- **Description:** " ++ h.description,
           "- **Evidence Count:** " ++ toString h.evidence_ids.length]))
    ++ ["", "## Action Items"]
    ++ action_items.flatMap (fun a =>
        ["- [" ++ a.priority.toUpper ++ "] **" ++ a.title ++ "** (" ++ a.type ++ ")",
         "  " ++ a.description])
  { jira_summary := summary, jira_description_md := String.intercalate "\n" parts }

/-! ## Progress publisher (`app/services/progress.py`)

Redis is modelled by a broker state whose operations are driven by a
failure oracle: the head of `failures` decides whether the next redis
operation raises (Python `redis.exceptions.ConnectionError` and friends
become `Except.error` carrying the state at the raise point).
`publish_progress` performs two operations in order — `hset` on the
snapshot key, then `publish` on the channel — and has **no** exception
handling of its own. -/

/-- A serialized progress update (`ProgressEvent`). -/
structure ProgressEvent where
  status : String
  step : String
  pct : Int
  message : String
  updated_at : Nat
  deriving Repr, DecidableEq

/-- The broker: snapshot records (latest first per key), the channel
messages in publication order, and the failure oracle. -/
structure Broker where
  failures : List Bool := []
  snapshots : List (String × ProgressEvent) := []
  published : List (String × ProgressEvent) := []
  deriving Repr, DecidableEq

/-- Whether the next redis operation fails (an exhausted oracle means
no failures). -/
def Broker.nextFails (b : Broker) : Bool := b.failures.head?.getD false

/-- Consume one oracle entry. -/
def Broker.consume (b : Broker) : Broker := { b with failures := b.failures.tail }

/-- `ProgressService.publish_progress`: overwrite the snapshot at
`rca:<id>:status`, then publish on channel `rca:<id>`; either operation
may raise, and nothing catches here. -/
def publish_progress (rca_run_id : String) (status step : String) (pct : Int)
    (message : String) (now : Nat) (b : Broker) : Except (String × Broker) Broker :=
  let ev : ProgressEvent :=
    { status := status, step := step, pct := pct, message := message, updated_at := now }
  if b.nextFails then
    .error ("redis connection error", b.consume)
  else
    let b1 : Broker := { b.consume with
      snapshots := (rca_run_id, ev)
        :: b.consume.snapshots.filter (fun q => !(q.1 == rca_run_id)) }
    if b1.nextFails then
      .error ("redis connection error", b1.consume)
    else
      .ok { b1.consume with published := b1.consume.published ++ [(rca_run_id, ev)] }

/-! ## RCArun persistence (`RCARepository.update_rca_run_status`,
`RCARepository.save_rca_report`) -/

/-- The field updates applied to one RCArun row by
`RCARepository.update_rca_run_status`. -/
def applyStatusUpdate (r : RCArun) (status step : String) (pct : Int)
    (message : String) (error_message : Option String) (now : Nat) : RCArun :=
  let r1 := { r with status := status, step := step, pct := pct, message := message }
  let r2 :=
    if status == "running" && r1.started_at == none then { r1 with started_at := some now }
    else if status == "done" || status == "error" then { r1 with ended_at := some now }
    else r1
  match error_message with
  | some s => if s == "" then r2 else { r2 with error_message := some s }
  | none => r2

/-- `RCARepository.update_rca_run_status`: no-op when the row is absent;
otherwise overwrite status/step/pct/message unconditionally (there is no
guard on the current status), stamp `started_at`/`ended_at`, and set
`error_message` when truthy. -/
def update_rca_run_status (db : Db) (rca_run_id status step : String) (pct : Int)
    (message : String) (error_message : Option String) (now : Nat) : Db :=
  match get_rca_run db rca_run_id with
  | none => db
  | some _ =>
    { db with rca_runs := db.rca_runs.map (fun r =>
        if r.rca_run_id == rca_run_id then
          applyStatusUpdate r status step pct message error_message now
        else r) }

/-- `RCARepository.save_rca_report`: the insert raises on the unique
constraint over `rca_run_id`. -/
def save_rca_report (db : Db) (row : RCAReportRow) : Except String Db :=
  if db.rca_reports.any (fun r => r.rca_run_id == row.rca_run_id) then
    .error "duplicate key value violates unique constraint on rca_reports.rca_run_id"
  else
    .ok { db with rca_reports := db.rca_reports ++ [row] }

/-! ## RCA orchestrator (`RCAOrchestrator.run_rca_analysis`) -/

/-- `RCAOrchestrator._collect_evidence` (re-queries the store). -/
def collect_evidence (db : Db) (run_id : String) : List EvidenceRef :=
  match get_agent_run_full db run_id with
  | none => []
  | some d => collectEvidenceFrom d

/-- The world seen by the orchestrator: the store and the broker. -/
structure World where
  db : Db
  broker : Broker
  deriving Repr, DecidableEq

/-- The outcome of one orchestrator invocation: the world afterwards and
the exception re-thrown to the worker, if any escaped. -/
structure RunOutcome where
  world : World
  raised : Option String
  deriving Repr, DecidableEq

/-- Report assembly (orchestrator steps 4-7): hypotheses and action
items, metrics, ticket fields, the report document and its row. -/
def reportRow (enabled : Bool) (report_id : String) (now : Nat)
    (rca_run_id run_id : String) (evidence_index : List EvidenceRef)
    (category : RCACategory) (insufficient : Bool) (data : AgentRunData) : RCAReportRow :=
  let ha := generate_hypotheses_and_actions enabled now category evidence_index insufficient
  let metrics := compile_metrics data
  let jira := generate_jira_fields run_id category ha.1 ha.2 insufficient
  let doc : RCAReportDoc :=
    { report_id := report_id, rca_run_id := rca_run_id, run_id := run_id,
      generated_at := now, category := category,
      insufficient_evidence := insufficient,
      insufficient_reason :=
        if insufficient then
          some "Limited telemetry: no tool failures or specific error details captured"
        else none,
      evidence_index := evidence_index, hypotheses := ha.1,
      action_items := ha.2, metrics_snapshot := metrics,
      jira_fields := jira }
  { report_id := report_id, rca_run_id := rca_run_id, run_id := run_id,
    report_json := doc, insufficient_evidence := insufficient,
    category := category.value, generated_at := now }

/-- The `try` body of `RCAOrchestrator.run_rca_analysis`, stage by
stage; an error carries the raise-point world to the `except` handler. -/
def run_rca_body (enabled : Bool) (report_id : String) (now : Nat)
    (rca_run_id : String) (w : World) : Except (String × World) World :=
  match get_rca_run w.db rca_run_id with
  | none => .ok w
  | some rca_run =>
    if rca_run.status == "done" then .ok w
    else
      let run_id := rca_run.run_id
      match publish_progress rca_run_id "running" "Starting RCA" 5 "Starting RCA" now
          w.broker with
      | .error (e, b) => .error (e, { w with broker := b })
      | .ok b1 =>
        let w1 : World :=
          { db := update_rca_run_status w.db rca_run_id "running" "starting" 5
              "Starting RCA analysis" none now,
            broker := b1 }
        match publish_progress rca_run_id "running" "Collecting evidence" 30
            "Collecting evidence" now w1.broker with
        | .error (e, b) => .error (e, { w1 with broker := b })
        | .ok b2 =>
          let w2 : World := { w1 with broker := b2 }
          let evidence_index := collect_evidence w2.db run_id
          match publish_progress rca_run_id "running" "Classifying failure" 55
              "Classifying failure" now w2.broker with
          | .error (e, b) => .error (e, { w2 with broker := b })
          | .ok b3 =>
            let w3 : World := { w2 with broker := b3 }
            match get_agent_run_full w3.db run_id with
            | none => .error ("Agent run not found: " ++ run_id, w3)
            | some data =>
              let category := classify_category data.run.error_type data.run.error_message
                data.tool_calls data.steps data.guardrails
              let insufficient := check_insufficient_evidence data evidence_index
              match publish_progress rca_run_id "running" "Generating report" 85
                  "Generating report" now w3.broker with
              | .error (e, b) => .error (e, { w3 with broker := b })
              | .ok b4 =>
                let w4 : World := { w3 with broker := b4 }
                match save_rca_report w4.db
                    (reportRow enabled report_id now rca_run_id run_id evidence_index
                      category insufficient data) with
                | .error e => .error (e, w4)
                | .ok db5 =>
                  let w5 : World := { w4 with db := db5 }
                  match publish_progress rca_run_id "done" "RCA complete" 100 "RCA complete"
                      now w5.broker with
                  | .error (e, b) => .error (e, { w5 with broker := b })
                  | .ok b6 =>
                    .ok { db := update_rca_run_status w5.db rca_run_id "done" "completed" 100
                            "RCA analysis completed" none now,
                          broker := b6 }

/-- `RCAOrchestrator.run_rca_analysis`: the body wrapped in the `except`
handler, which publishes the error (itself able to raise — nothing
catches that) and then persists the error status. -/
def run_rca_analysis (enabled : Bool) (report_id : String) (now : Nat)
    (rca_run_id : String) (w : World) : RunOutcome :=
  match run_rca_body enabled report_id now rca_run_id w with
  | .ok w2 => { world := w2, raised := none }
  | .error (e, we) =>
    match publish_progress rca_run_id "error" "RCA failed" 0 ("Error: " ++ e) now
        we.broker with
    | .error (e2, b) => { world := { we with broker := b }, raised := some e2 }
    | .ok b =>
      { world := { db := update_rca_run_status we.db rca_run_id "error" "failed" 0
                     "RCA failed" (some e) now,
                   broker := b },
        raised := none }

/-! ## Orchestrator theorems -/

/-- Preflight: a missing RCArun or a `done` one short-circuits the body. -/
theorem run_rca_body_preflight (enabled : Bool) (report_id : String) (now : Nat)
    (rca_run_id : String) (w : World)
    (h : get_rca_run w.db rca_run_id = none
      ∨ ∃ r, get_rca_run w.db rca_run_id = some r ∧ r.status = "done") :
    run_rca_body enabled report_id now rca_run_id w = .ok w := by
  unfold run_rca_body
  rcases h with h | ⟨r, hr, hst⟩
  · rw [h]
  · rw [hr]
    simp [hst]

/-- C5: the done short-circuit makes duplicate delivery harmless — when
the RCArun is absent or already `done`, the orchestrator returns with the
world unchanged: no database writes, no snapshot writes, no channel
publications, no new RCAReport, and nothing re-thrown to the worker. -/
theorem done_short_circuit_no_work (enabled : Bool) (report_id : String) (now : Nat)
    (rca_run_id : String) (w : World)
    (h : get_rca_run w.db rca_run_id = none
      ∨ ∃ r, get_rca_run w.db rca_run_id = some r ∧ r.status = "done") :
    run_rca_analysis enabled report_id now rca_run_id w = { world := w, raised := none } := by
  unfold run_rca_analysis
  rw [run_rca_body_preflight enabled report_id now rca_run_id w h]

/-- An RCArun row already in the `done` state. -/
def doneRow : RCArun :=
  { rca_run_id := "rca-done", run_id := "r1", status := "done" }

/-- A world holding only `doneRow`. -/
def doneWorld : World :=
  { db := { rca_runs := [doneRow] }, broker := {} }

/-- Witness for C5 at a concrete `done` RCArun. -/
theorem done_short_circuit_no_work_witness :
    run_rca_analysis false "rep" 3 "rca-done" doneWorld
      = { world := doneWorld, raised := none } :=
  done_short_circuit_no_work false "rep" 3 "rca-done" doneWorld
    (Or.inr ⟨doneRow, rfl, rfl⟩)

/-- C6 (amended): `done` is sticky — once an RCArun's status is `done`,
a subsequent orchestrator invocation (and hence any duplicate job
delivery) leaves its status `done`.  The `error` status is not sticky
(see the counterexample), and `update_rca_run_status` overwrites any
status unconditionally. -/
theorem terminal_done_sticky (enabled : Bool) (report_id : String) (now : Nat)
    (rca_run_id : String) (w : World) (r : RCArun)
    (hr : get_rca_run w.db rca_run_id = some r) (hst : r.status = "done") :
    (get_rca_run (run_rca_analysis enabled report_id now rca_run_id w).world.db
      rca_run_id).map (fun x => x.status) = some "done" := by
  unfold run_rca_analysis
  rw [run_rca_body_preflight enabled report_id now rca_run_id w (Or.inr ⟨r, hr, hst⟩)]
  simp [hr, hst]

/-- Witness for the amended C6 at a concrete `done` RCArun. -/
theorem terminal_done_sticky_witness :
    (get_rca_run (run_rca_analysis false "rep" 3 "rca-done" doneWorld).world.db
      "rca-done").map (fun x => x.status) = some "done" :=
  terminal_done_sticky false "rep" 3 "rca-done" doneWorld doneRow rfl rfl

/-- A failed agent run `r1` with a run-level error type and no children. -/
def runR1 : AgentRun :=
  { run_id := "r1", agent_name := "a", agent_version := "1", model := "m",
    environment := "dev", status := "failure", started_at := 0, ended_at := 1,
    error_type := some "ToolError" }

/-- A world whose RCArun `rca1` is already in the terminal `error`
state, with its agent run present and a healthy broker. -/
def errWorld : World :=
  { db := { agent_runs := [runR1],
            rca_runs := [{ rca_run_id := "rca1", run_id := "r1", status := "error",
                           created_at := 0 }] },
    broker := {} }

/-- C6 counterexample: an RCArun in the terminal `error` state is
re-processed by a subsequent orchestrator invocation and ends up `done` —
refuting "once its status is done or error, no subsequent operation ever
changes its status". -/
theorem terminal_error_not_sticky_cex :
    (get_rca_run errWorld.db "rca1").map (fun x => x.status) = some "error"
    ∧ (get_rca_run (run_rca_analysis false "rep" 50 "rca1" errWorld).world.db
        "rca1").map (fun x => x.status) = some "done" :=
  ⟨rfl, rfl⟩

/-- A queued RCArun for `r1` with a broker whose next operations fail
according to `fails`. -/
def queuedWorld (fails : List Bool) : World :=
  { db := { agent_runs := [runR1],
            rca_runs := [{ rca_run_id := "rca1", run_id := "r1", status := "queued",
                           created_at := 0 }] },
    broker := { failures := fails } }

/-- C7 evidence at the failing input: `publish_progress` has no
exception handling, so a broker failure propagates.  With the broker
down (both the first publish and the error-branch publish fail) the
exception escapes `run_rca_analysis` to the worker and the RCArun never
leaves `queued`; with a single transient failure the run is driven to
`error` instead of its correct `done`; only with a healthy broker does
it reach `done`. -/
theorem broker_failure_fatal_cex :
    ((run_rca_analysis false "rep" 50 "rca1" (queuedWorld [true, true])).raised
        = some "redis connection error"
      ∧ (get_rca_run (run_rca_analysis false "rep" 50 "rca1"
          (queuedWorld [true, true])).world.db "rca1").map (fun x => x.status)
        = some "queued"
      ∧ (run_rca_analysis false "rep" 50 "rca1"
          (queuedWorld [true, true])).world.db.rca_reports = [])
    ∧ ((run_rca_analysis false "rep" 50 "rca1" (queuedWorld [true])).raised = none
      ∧ (get_rca_run (run_rca_analysis false "rep" 50 "rca1"
          (queuedWorld [true])).world.db "rca1").map (fun x => x.status)
        = some "error")
    ∧ ((run_rca_analysis false "rep" 50 "rca1" (queuedWorld [])).raised = none
      ∧ (get_rca_run (run_rca_analysis false "rep" 50 "rca1"
          (queuedWorld [])).world.db "rca1").map (fun x => x.status)
        = some "done") :=
  ⟨⟨rfl, rfl, rfl⟩, ⟨rfl, rfl⟩, ⟨rfl, rfl⟩⟩

/-! ## Progress-percentage monotonicity (claim C8) -/

/-- A list of percentages is non-decreasing. -/
def nonDecreasing : List Int → Bool
  | [] => true
  | [_] => true
  | a :: b :: t => decide (a ≤ b) && nonDecreasing (b :: t)

/-- A world whose queued RCArun `rca8` references a run that was never
ingested, so the classification stage throws `Agent run not found`. -/
def orphanWorld : World :=
  { db := { rca_runs := [{ rca_run_id := "rca8", run_id := "ghost", status := "queued",
                           created_at := 0 }] },
    broker := {} }

/-- C8 counterexample: one orchestrator invocation publishes pct values
5, 30, 55 and then the error publication with pct 0 — the published
sequence including the error publication is not non-decreasing,
refuting the claim as stated. -/
theorem pct_sequence_with_error_cex :
    ((run_rca_analysis false "rep" 9 "rca8" orphanWorld).world.broker.published.map
      (fun e => e.2.pct)) = [5, 30, 55, 0]
    ∧ nonDecreasing [5, 30, 55, 0] = false :=
  ⟨rfl, rfl⟩

/-- One canonical progress message of the success path. -/
def runPub (id st sp : String) (pct : Int) (now : Nat) : String × ProgressEvent :=
  (id, { status := st, step := sp, pct := pct, message := sp, updated_at := now })

/-- The five canonical progress messages of a successful invocation. -/
def canonicalPubs (id : String) (now : Nat) : List (String × ProgressEvent) :=
  [runPub id "running" "Starting RCA" 5 now,
   runPub id "running" "Collecting evidence" 30 now,
   runPub id "running" "Classifying failure" 55 now,
   runPub id "running" "Generating report" 85 now,
   runPub id "done" "RCA complete" 100 now]

/-- A successful publish appends exactly its event to the channel. -/
theorem publish_ok_published {id st sp : String} {pct : Int} {msg : String} {now : Nat}
    {b b2 : Broker} (h : publish_progress id st sp pct msg now b = .ok b2) :
    b2.published = b.published
      ++ [(id, { status := st, step := sp, pct := pct, message := msg, updated_at := now })] := by
  unfold publish_progress at h
  dsimp only at h
  split at h
  · exact Except.noConfusion h
  · split at h
    · exact Except.noConfusion h
    · injection h with h2
      rw [← h2]
      rfl

/-- A failed publish leaves the channel unchanged (the failure may hit
either the snapshot write or the channel publish). -/
theorem publish_error_published {id st sp : String} {pct : Int} {msg : String} {now : Nat}
    {b : Broker} {e : String} {b2 : Broker}
    (h : publish_progress id st sp pct msg now b = .error (e, b2)) :
    b2.published = b.published := by
  unfold publish_progress at h
  dsimp only at h
  split at h
  · injection h with h2
    rw [Prod.mk.injEq] at h2
    rw [← h2.2]
    rfl
  · split at h
    · injection h with h2
      rw [Prod.mk.injEq] at h2
      rw [← h2.2]
      rfl
    · exact Except.noConfusion h

/-- The body publishes a prefix of the five canonical messages: on
success the whole quintuple or (on the preflight short-circuit) nothing;
on an exception a prefix of the first four. -/
theorem run_rca_body_published_ok (enabled : Bool) (report_id : String) (now : Nat)
    (rca_run_id : String) (w w2 : World)
    (h : run_rca_body enabled report_id now rca_run_id w = .ok w2) :
    ∃ n, n ≤ 5 ∧ w2.broker.published
      = w.broker.published ++ (canonicalPubs rca_run_id now).take n := by
  unfold run_rca_body at h
  split at h
  · injection h with h2
    exact ⟨0, by omega, by rw [← h2]; simp⟩
  · split at h
    · injection h with h2
      exact ⟨0, by omega, by rw [← h2]; simp⟩
    · try dsimp only at h
      split at h
      · exact Except.noConfusion h
      · rename_i b1 hp5
        try dsimp only at h
        split at h
        · exact Except.noConfusion h
        · rename_i b2 hp30
          try dsimp only at h
          split at h
          · exact Except.noConfusion h
          · rename_i b3 hp55
            try dsimp only at h
            split at h
            · exact Except.noConfusion h
            · rename_i data hfull
              try dsimp only at h
              split at h
              · exact Except.noConfusion h
              · rename_i b4 hp85
                try dsimp only at h
                split at h
                · exact Except.noConfusion h
                · rename_i db5 hsave
                  try dsimp only at h
                  split at h
                  · exact Except.noConfusion h
                  · rename_i b6 hp100
                    injection h with h2
                    refine ⟨5, by omega, ?_⟩
                    rw [← h2]
                    show b6.published = _
                    rw [publish_ok_published hp100, publish_ok_published hp85,
                        publish_ok_published hp55, publish_ok_published hp30,
                        publish_ok_published hp5]
                    simp [canonicalPubs, runPub]

/-- On an exception the body has published a prefix of the first four
canonical messages. -/
theorem run_rca_body_published_err (enabled : Bool) (report_id : String) (now : Nat)
    (rca_run_id : String) (w : World) (e : String) (we : World)
    (h : run_rca_body enabled report_id now rca_run_id w = .error (e, we)) :
    ∃ n, n ≤ 4 ∧ we.broker.published
      = w.broker.published ++ (canonicalPubs rca_run_id now).take n := by
  unfold run_rca_body at h
  split at h
  · exact Except.noConfusion h
  · split at h
    · exact Except.noConfusion h
    · try dsimp only at h
      split at h
      · rename_i e1 b hp5
        injection h with h2
        rw [Prod.mk.injEq] at h2
        refine ⟨0, by omega, ?_⟩
        rw [← h2.2]
        simpa using publish_error_published hp5
      · rename_i b1 hp5
        try dsimp only at h
        split at h
        · rename_i e1 b hp30
          injection h with h2
          rw [Prod.mk.injEq] at h2
          refine ⟨1, by omega, ?_⟩
          rw [← h2.2]
          show b.published = _
          rw [publish_error_published hp30, publish_ok_published hp5]
          simp [canonicalPubs, runPub]
        · rename_i b2 hp30
          try dsimp only at h
          split at h
          · rename_i e1 b hp55
            injection h with h2
            rw [Prod.mk.injEq] at h2
            refine ⟨2, by omega, ?_⟩
            rw [← h2.2]
            show b.published = _
            rw [publish_error_published hp55, publish_ok_published hp30,
                publish_ok_published hp5]
            simp [canonicalPubs, runPub]
          · rename_i b3 hp55
            try dsimp only at h
            split at h
            · rename_i hfull
              injection h with h2
              rw [Prod.mk.injEq] at h2
              refine ⟨3, by omega, ?_⟩
              rw [← h2.2]
              show b3.published = _
              rw [publish_ok_published hp55, publish_ok_published hp30,
                  publish_ok_published hp5]
              simp [canonicalPubs, runPub]
            · rename_i data hfull
              try dsimp only at h
              split at h
              · rename_i e1 b hp85
                injection h with h2
                rw [Prod.mk.injEq] at h2
                refine ⟨3, by omega, ?_⟩
                rw [← h2.2]
                show b.published = _
                rw [publish_error_published hp85, publish_ok_published hp55,
                    publish_ok_published hp30, publish_ok_published hp5]
                simp [canonicalPubs, runPub]
              · rename_i b4 hp85
                try dsimp only at h
                split at h
                · rename_i esave hsave
                  injection h with h2
                  rw [Prod.mk.injEq] at h2
                  refine ⟨4, by omega, ?_⟩
                  rw [← h2.2]
                  show b4.published = _
                  rw [publish_ok_published hp85, publish_ok_published hp55,
                      publish_ok_published hp30, publish_ok_published hp5]
                  simp [canonicalPubs, runPub]
                · rename_i db5 hsave
                  try dsimp only at h
                  split at h
                  · rename_i e1 b hp100
                    injection h with h2
                    rw [Prod.mk.injEq] at h2
                    refine ⟨4, by omega, ?_⟩
                    rw [← h2.2]
                    show b.published = _
                    rw [publish_error_published hp100, publish_ok_published hp85,
                        publish_ok_published hp55, publish_ok_published hp30,
                        publish_ok_published hp5]
                    simp [canonicalPubs, runPub]
                  · exact Except.noConfusion h

/-- C8 (amended): within one orchestrator invocation, the pct values of
the newly published progress events with status other than `error` are
non-decreasing (5, 30, 55, 85, 100 or a prefix); the error publication,
when present, resets pct to 0 and is the only decrease. -/
theorem pct_monotone_amended :
    ∀ (enabled : Bool) (report_id : String) (now : Nat) (rca_run_id : String) (w : World),
      nonDecreasing
        (((((run_rca_analysis enabled report_id now rca_run_id w).world.broker.published).drop
            w.broker.published.length).filter
          (fun ev => !(ev.2.status == "error"))).map (fun ev => ev.2.pct)) = true := by
  intro enabled report_id now rca_run_id w
  unfold run_rca_analysis
  cases hbody : run_rca_body enabled report_id now rca_run_id w with
  | ok w2 =>
    obtain ⟨n, hn, hpub⟩ := run_rca_body_published_ok enabled report_id now rca_run_id w w2
      hbody
    dsimp only
    rw [hpub, List.drop_left]
    interval_cases n <;> rfl
  | error ew =>
    obtain ⟨e, we⟩ := ew
    obtain ⟨n, hn, hpub⟩ := run_rca_body_published_err enabled report_id now rca_run_id w e we
      hbody
    dsimp only
    cases hpe : publish_progress rca_run_id "error" "RCA failed" 0 ("Error: " ++ e) now
        we.broker with
    | error eb =>
      obtain ⟨e2, b⟩ := eb
      dsimp only
      show nonDecreasing (((b.published.drop w.broker.published.length).filter
        (fun ev => !(ev.2.status == "error"))).map (fun ev => ev.2.pct)) = true
      rw [publish_error_published hpe, hpub, List.drop_left]
      interval_cases n <;> rfl
    | ok b =>
      dsimp only
      show nonDecreasing (((b.published.drop w.broker.published.length).filter
        (fun ev => !(ev.2.status == "error"))).map (fun ev => ev.2.pct)) = true
      rw [publish_ok_published hpe, hpub, List.append_assoc, List.drop_left]
      interval_cases n <;> rfl

end AgentOps
